import Mathlib

/-!
Shallow embedding of the PTP client core of the `generic-ptpv2-client`
module (files `src/ptpv1.ts` and `src/ptpv2.ts`).

JavaScript numbers holding integral time values are modelled as `Int`;
the exact-arithmetic offset computation of the Delay_Resp branch, whose
intermediate values can be half-integers, is modelled over `Rat`.  Node
`Buffer`s are modelled as a size together with a byte map `Nat → Nat`.
-/

namespace PtpClient

/-- One billion, the nanoseconds-per-second constant `1_000_000_000`
used throughout both clients. -/
def NS_PER_SEC : Int := 1000000000

/-- JavaScript `Math.floor(a / b)` on integral operands (floor division,
which for `b > 0` is Euclidean division). -/
def jsFloorDiv (a b : Int) : Int := a / b

/-- JavaScript `Math.ceil(a / b)` on integral operands (ceiling division),
expressed through floor division: `ceil(a/b) = -floor(-a/b)`. -/
def jsCeilDiv (a b : Int) : Int := -((-a) / b)

/-- JavaScript `a % b` for `a ≥ 0, b > 0` (where the JS truncating
remainder agrees with the Euclidean remainder, the meaning of `%` on
`Int` here). -/
def jsMod (a b : Int) : Int := a % b

/-- Embedding of `normalizePtpTime` (identical in `src/ptpv1.ts` lines
81–91 and `src/ptpv2.ts` lines 20–30):

    if (ns >= 1_000_000_000) { s += Math.floor(ns / 1e9); ns = ns % 1e9 }
    else if (ns < 0) { const borrow = Math.ceil(-ns / 1e9);
                       s -= borrow; ns += borrow * 1e9 }
    return [s, ns]
-/
def normalizePtpTime (s ns : Int) : Int × Int :=
  if ns ≥ NS_PER_SEC then
    (s + jsFloorDiv ns NS_PER_SEC, jsMod ns NS_PER_SEC)
  else if ns < 0 then
    -- the source binds `const borrow = Math.ceil(-ns / 1e9)`; inlined here
    (s - jsCeilDiv (-ns) NS_PER_SEC, ns + jsCeilDiv (-ns) NS_PER_SEC * NS_PER_SEC)
  else
    (s, ns)

/-- The nanoseconds component returned by `normalizePtpTime` lies in
`[0, 1e9)` and the represented instant `s*1e9 + ns` is preserved. -/
theorem normalizePtpTime_spec (s ns : Int) :
    0 ≤ (normalizePtpTime s ns).2 ∧
    (normalizePtpTime s ns).2 < NS_PER_SEC ∧
    (normalizePtpTime s ns).1 * NS_PER_SEC + (normalizePtpTime s ns).2 =
      s * NS_PER_SEC + ns := by
  unfold normalizePtpTime jsFloorDiv jsCeilDiv jsMod NS_PER_SEC
  split
  · refine ⟨by omega, by omega, ?_⟩
    ring_nf
    omega
  · split
    · exact ⟨by omega, by omega, by ring⟩
    · exact ⟨by omega, by omega, rfl⟩

/-! ### Exact-arithmetic model of the Delay_Resp offset computation

The Delay_Resp branch of the general-socket handler multiplies by `0.5`,
so its intermediate values can be half-integers.  The computation is
modelled over `ℚ`, which renders the seconds×1e9+nanoseconds arithmetic
exactly. -/

/-- One billion as a rational, the `1_000_000_000` constant of the
Delay_Resp offset computation. -/
def NS_PER_SECQ : ℚ := 1000000000

/-- JavaScript `Math.floor` on a rational value. -/
def jsFloorQ (q : ℚ) : Int := ⌊q⌋

/-- JavaScript `Math.ceil` on a rational value. -/
def jsCeilQ (q : ℚ) : Int := ⌈q⌉

/-- JavaScript `Math.trunc` on a rational value (rounds toward zero). -/
def jsTruncQ (q : ℚ) : Int := if 0 ≤ q then ⌊q⌋ else ⌈q⌉

/-- JavaScript `a % b` on rational values (truncating remainder,
`a - trunc(a/b)*b`, the IEEE-754 fmod rule for finite operands). -/
def jsModQ (a b : ℚ) : ℚ := a - jsTruncQ (a / b) * b

/-- `normalizePtpTime` again, over exact rational components (same code,
applied to possibly half-integer nanoseconds by the Delay_Resp branch). -/
def normalizePtpTimeQ (s ns : ℚ) : ℚ × ℚ :=
  if ns ≥ NS_PER_SECQ then
    (s + jsFloorQ (ns / NS_PER_SECQ), jsModQ ns NS_PER_SECQ)
  else if ns < 0 then
    -- the source binds `const borrow = Math.ceil(-ns / 1e9)`; inlined here
    (s - jsCeilQ (-ns / NS_PER_SECQ), ns + jsCeilQ (-ns / NS_PER_SECQ) * NS_PER_SECQ)
  else
    (s, ns)

/-- The rational variant of the normalization also returns a nanoseconds
component in `[0, 1e9)` and preserves `s*1e9 + ns`. -/
theorem normalizePtpTimeQ_spec (s ns : ℚ) :
    0 ≤ (normalizePtpTimeQ s ns).2 ∧
    (normalizePtpTimeQ s ns).2 < NS_PER_SECQ ∧
    (normalizePtpTimeQ s ns).1 * NS_PER_SECQ + (normalizePtpTimeQ s ns).2 =
      s * NS_PER_SECQ + ns := by
  have hB : (0 : ℚ) < NS_PER_SECQ := by norm_num [NS_PER_SECQ]
  unfold normalizePtpTimeQ
  split
  · rename_i hns
    have hq : (0 : ℚ) ≤ ns / NS_PER_SECQ := div_nonneg (by linarith) (le_of_lt hB)
    have htf : jsTruncQ (ns / NS_PER_SECQ) = jsFloorQ (ns / NS_PER_SECQ) := by
      unfold jsTruncQ jsFloorQ
      exact if_pos hq
    have h1 : (↑⌊ns / NS_PER_SECQ⌋ : ℚ) ≤ ns / NS_PER_SECQ := Int.floor_le _
    have h2 : ns / NS_PER_SECQ < ↑⌊ns / NS_PER_SECQ⌋ + 1 := Int.lt_floor_add_one _
    have h3 : (↑⌊ns / NS_PER_SECQ⌋ : ℚ) * NS_PER_SECQ ≤ ns := by
      exact (le_div_iff₀ hB).mp h1
    have h4 : ns < (↑⌊ns / NS_PER_SECQ⌋ + 1) * NS_PER_SECQ := by
      exact (div_lt_iff₀ hB).mp h2
    unfold jsModQ
    rw [htf]
    unfold jsFloorQ
    refine ⟨by linarith, by linarith, by ring⟩
  · split
    · rename_i hns hneg
      have h1 : -ns / NS_PER_SECQ ≤ (↑⌈-ns / NS_PER_SECQ⌉ : ℚ) := Int.le_ceil _
      have h2 : (↑⌈-ns / NS_PER_SECQ⌉ : ℚ) < -ns / NS_PER_SECQ + 1 :=
        Int.ceil_lt_add_one _
      have h3 : -ns ≤ (↑⌈-ns / NS_PER_SECQ⌉ : ℚ) * NS_PER_SECQ := by
        exact (div_le_iff₀ hB).mp h1
      have h4 : ((↑⌈-ns / NS_PER_SECQ⌉ : ℚ) - 1) * NS_PER_SECQ < -ns := by
        have := (lt_div_iff₀ hB).mp (by linarith : (↑⌈-ns / NS_PER_SECQ⌉ : ℚ) - 1 < -ns / NS_PER_SECQ)
        linarith
      unfold jsCeilQ
      refine ⟨by linarith, by nlinarith, by ring⟩
    · rename_i hns hnonneg
      exact ⟨by linarith, by linarith, rfl⟩

/-- Embedding of the Delay_Resp (`type == 0x09` / `MSG_DELAY_RESP`)
branch's offset computation (`src/ptpv2.ts` lines 236–245, identical in
`src/ptpv1.ts` lines 340–347):

    const delta = 0.5 * (ts1[0] - t1[0] - ts2[0] + t2[0]) * 1e9
                + 0.5 * (ts1[1] - t1[1] - ts2[1] + t2[1])
    const deltaS = Math.trunc(delta / 1e9)
    const deltaNS = delta - deltaS * 1e9
    offset = normalizePtpTime(offset[0] + deltaS, offset[1] + deltaNS)
-/
def delayRespOffsetUpdate (t1 ts1 t2 ts2 offset : ℚ × ℚ) : ℚ × ℚ :=
  let delta : ℚ :=
    (0.5 : ℚ) * (ts1.1 - t1.1 - ts2.1 + t2.1) * NS_PER_SECQ +
    (0.5 : ℚ) * (ts1.2 - t1.2 - ts2.2 + t2.2)
  let deltaS : Int := jsTruncQ (delta / NS_PER_SECQ)
  let deltaNS : ℚ := delta - deltaS * NS_PER_SECQ
  normalizePtpTimeQ (offset.1 + deltaS) (offset.2 + deltaNS)

/-- The instant represented by a (seconds, nanoseconds) pair, measured in
nanoseconds: `s*1e9 + ns`.  Used to state the exact-arithmetic claims. -/
def totalNsQ (p : ℚ × ℚ) : ℚ := p.1 * NS_PER_SECQ + p.2

/-- Claim C1: for every pair of integers `(s, ns)`, `normalizePtpTime`
returns `(s', ns')` with `0 ≤ ns' < 1_000_000_000` and
`s*1e9 + ns = s'*1e9 + ns'`, for arbitrarily large overflow or
underflow of the nanoseconds component. -/
theorem spec_C1 (s ns : Int) :
    0 ≤ (normalizePtpTime s ns).2 ∧
    (normalizePtpTime s ns).2 < 1000000000 ∧
    s * 1000000000 + ns =
      (normalizePtpTime s ns).1 * 1000000000 + (normalizePtpTime s ns).2 := by
  obtain ⟨h1, h2, h3⟩ := normalizePtpTime_spec s ns
  exact ⟨h1, h2, h3.symm⟩

/-- Claim C2: the Delay_Resp branch sets the new offset to
`normalize(offset + (deltaS, deltaNS))` where
`delta = 0.5 * ((ts1 − t1) − (ts2 − t2))` evaluated in exact
seconds×1e9+nanoseconds arithmetic, `deltaS = trunc(delta / 1e9)` and
`deltaNS = delta − deltaS*1e9`; and the resulting offset's nanoseconds
component lies in `[0, 1e9)`, negative deltas (`ts1 < t1`) included. -/
theorem spec_C2 (t1 ts1 t2 ts2 offset : ℚ × ℚ) :
    delayRespOffsetUpdate t1 ts1 t2 ts2 offset =
      normalizePtpTimeQ
        (offset.1 + jsTruncQ ((0.5 : ℚ) *
          ((totalNsQ ts1 - totalNsQ t1) - (totalNsQ ts2 - totalNsQ t2)) / NS_PER_SECQ))
        (offset.2 + ((0.5 : ℚ) *
          ((totalNsQ ts1 - totalNsQ t1) - (totalNsQ ts2 - totalNsQ t2)) -
          jsTruncQ ((0.5 : ℚ) *
            ((totalNsQ ts1 - totalNsQ t1) - (totalNsQ ts2 - totalNsQ t2)) / NS_PER_SECQ) *
            NS_PER_SECQ)) ∧
    0 ≤ (delayRespOffsetUpdate t1 ts1 t2 ts2 offset).2 ∧
    (delayRespOffsetUpdate t1 ts1 t2 ts2 offset).2 < 1000000000 := by
  have hdelta :
      (0.5 : ℚ) * (ts1.1 - t1.1 - ts2.1 + t2.1) * NS_PER_SECQ +
        (0.5 : ℚ) * (ts1.2 - t1.2 - ts2.2 + t2.2) =
      (0.5 : ℚ) * ((totalNsQ ts1 - totalNsQ t1) - (totalNsQ ts2 - totalNsQ t2)) := by
    unfold totalNsQ
    ring
  refine ⟨?_, ?_, ?_⟩
  · simp only [delayRespOffsetUpdate]
    rw [hdelta]
  · simp only [delayRespOffsetUpdate]
    exact (normalizePtpTimeQ_spec _ _).1
  · simp only [delayRespOffsetUpdate]
    have h := (normalizePtpTimeQ_spec
      (offset.1 + jsTruncQ (((0.5 : ℚ) * (ts1.1 - t1.1 - ts2.1 + t2.1) * NS_PER_SECQ +
        (0.5 : ℚ) * (ts1.2 - t1.2 - ts2.2 + t2.2)) / NS_PER_SECQ))
      (offset.2 + (((0.5 : ℚ) * (ts1.1 - t1.1 - ts2.1 + t2.1) * NS_PER_SECQ +
        (0.5 : ℚ) * (ts1.2 - t1.2 - ts2.2 + t2.2)) -
        jsTruncQ (((0.5 : ℚ) * (ts1.1 - t1.1 - ts2.1 + t2.1) * NS_PER_SECQ +
          (0.5 : ℚ) * (ts1.2 - t1.2 - ts2.2 + t2.2)) / NS_PER_SECQ) * NS_PER_SECQ))).2.1
    have hBval : NS_PER_SECQ = (1000000000 : ℚ) := rfl
    rw [hBval] at h
    exact h

/-! ### Node Buffer model and the Delay_Req packet builders -/

/-- A Node `Buffer`: a byte count plus a byte map.  All construction
paths in the embedded code keep bytes at or beyond `size` equal to 0. -/
structure JsBuffer where
  size : Nat
  byteAt : Nat → Nat

/-- `Buffer.alloc(n, 0)` / `Buffer.alloc(n)`: `n` zero bytes. -/
def bufferAlloc (n : Nat) : JsBuffer := ⟨n, fun _ => 0⟩

/-- `buffer.writeUInt8(v, off)`. -/
def writeUInt8 (b : JsBuffer) (v off : Nat) : JsBuffer :=
  ⟨b.size, fun i => if i = off then v % 256 else b.byteAt i⟩

/-- `buffer.writeUInt16BE(v, off)` (big-endian, `v < 65536` at every
call site in the embedded code). -/
def writeUInt16BE (b : JsBuffer) (v off : Nat) : JsBuffer :=
  ⟨b.size, fun i =>
    if i = off then v / 256 % 256
    else if i = off + 1 then v % 256
    else b.byteAt i⟩

/-- `buffer.readUInt8(off)`. -/
def readUInt8 (b : JsBuffer) (off : Nat) : Nat := b.byteAt off

/-- `buffer.readUInt16BE(off)`. -/
def readUInt16BE (b : JsBuffer) (off : Nat) : Nat :=
  256 * b.byteAt off + b.byteAt (off + 1)

/-- `src.copy(dst, 0)`: copy all `src.size` bytes of `src` to the start
of `dst` (every use here has `src.size ≤ dst.size`). -/
def bufferCopyTo (src dst : JsBuffer) : JsBuffer :=
  ⟨dst.size, fun i => if i < src.size then src.byteAt i else dst.byteAt i⟩

/-- PTPv1 message type `MSG_DELAY_REQ` (`src/ptpv1.ts` line 14). -/
def MSG_DELAY_REQ : Nat := 0x02

/-- PTPv1 control value `CTRL_DELAY_REQ` (`src/ptpv1.ts` line 20). -/
def CTRL_DELAY_REQ : Nat := 0x01

/-- Embedding of `PTPv1Client.ptp_delay_req` (`src/ptpv1.ts` lines
443–455).  Returns the updated `req_seq` together with the built
buffer:

    const buffer = Buffer.alloc(44, 0)
    this.req_seq = (this.req_seq + 1) % 0x10000
    this.subdomainBuf.copy(buffer, 0)
    buffer.writeUInt8(MSG_DELAY_REQ, 16)
    buffer.writeUInt8(0x00, 17)
    buffer.writeUInt16BE(this.req_seq, 26)
    buffer.writeUInt8(CTRL_DELAY_REQ, 28)
-/
def ptpV1DelayReq (subdomainBuf : JsBuffer) (req_seq : Nat) : Nat × JsBuffer :=
  let seq := (req_seq + 1) % 0x10000
  let buffer := bufferAlloc 44
  let buffer := bufferCopyTo subdomainBuf buffer
  let buffer := writeUInt8 buffer MSG_DELAY_REQ 16
  let buffer := writeUInt8 buffer 0x00 17
  let buffer := writeUInt16BE buffer seq 26
  let buffer := writeUInt8 buffer CTRL_DELAY_REQ 28
  (seq, buffer)

/-- Embedding of `PTPv2Client.ptp_delay_req` (`src/ptpv2.ts` lines
287–300):

    const length = 52
    const buffer = Buffer.alloc(length)
    this.req_seq = (this.req_seq + 1) % 0x10000
    buffer.writeUInt8(1, 0)
    buffer.writeUInt8(2, 1)
    buffer.writeUInt16BE(length, 2)
    buffer.writeUInt8(this.ptp_domain, 4)
    buffer.writeUInt16BE(this.req_seq, 30)
-/
def ptpV2DelayReq (ptp_domain : Nat) (req_seq : Nat) : Nat × JsBuffer :=
  let seq := (req_seq + 1) % 0x10000
  let buffer := bufferAlloc 52
  let buffer := writeUInt8 buffer 1 0
  let buffer := writeUInt8 buffer 2 1
  let buffer := writeUInt16BE buffer 52 2
  let buffer := writeUInt8 buffer ptp_domain 4
  let buffer := writeUInt16BE buffer seq 30
  (seq, buffer)

/-- Claim C5: building a Delay_Req increments `req_seq` mod 65536 and
produces a buffer whose decoded header carries exactly the written
values — legacy: type 2 at byte 16, control 1 at byte 28, the new
sequence at bytes 26–27, the subdomain at bytes 0–15; modern: type
nibble 1 at byte 0, version 2 at byte 1, length 52 at bytes 2–3, the
configured domain at byte 4, the new sequence at bytes 30–31 — and all
other bytes zero. -/
theorem spec_C5 (subdomainBuf : JsBuffer) (req_seq ptp_domain : Nat)
    (hsub : subdomainBuf.size = 16) (hdom : ptp_domain ≤ 127) :
    (ptpV1DelayReq subdomainBuf req_seq).1 = (req_seq + 1) % 65536 ∧
    readUInt8 (ptpV1DelayReq subdomainBuf req_seq).2 16 = 2 ∧
    readUInt8 (ptpV1DelayReq subdomainBuf req_seq).2 28 = 1 ∧
    readUInt16BE (ptpV1DelayReq subdomainBuf req_seq).2 26 = (req_seq + 1) % 65536 ∧
    (∀ i, i < 16 → (ptpV1DelayReq subdomainBuf req_seq).2.byteAt i = subdomainBuf.byteAt i) ∧
    (∀ i, 16 ≤ i → i ≠ 16 → i ≠ 26 → i ≠ 27 → i ≠ 28 →
      (ptpV1DelayReq subdomainBuf req_seq).2.byteAt i = 0) ∧
    (ptpV2DelayReq ptp_domain req_seq).1 = (req_seq + 1) % 65536 ∧
    readUInt8 (ptpV2DelayReq ptp_domain req_seq).2 0 % 16 = 1 ∧
    readUInt8 (ptpV2DelayReq ptp_domain req_seq).2 1 = 2 ∧
    readUInt16BE (ptpV2DelayReq ptp_domain req_seq).2 2 = 52 ∧
    readUInt8 (ptpV2DelayReq ptp_domain req_seq).2 4 = ptp_domain ∧
    readUInt16BE (ptpV2DelayReq ptp_domain req_seq).2 30 = (req_seq + 1) % 65536 ∧
    (∀ i, i ≠ 0 → i ≠ 1 → i ≠ 2 → i ≠ 3 → i ≠ 4 → i ≠ 30 → i ≠ 31 →
      (ptpV2DelayReq ptp_domain req_seq).2.byteAt i = 0) := by
  refine ⟨rfl, ?_, ?_, ?_, ?_, ?_, rfl, ?_, ?_, ?_, ?_, ?_, ?_⟩
  · simp [ptpV1DelayReq, bufferAlloc, bufferCopyTo, writeUInt8, writeUInt16BE, readUInt8,
      MSG_DELAY_REQ, CTRL_DELAY_REQ]
  · simp [ptpV1DelayReq, bufferAlloc, bufferCopyTo, writeUInt8, writeUInt16BE, readUInt8,
      MSG_DELAY_REQ, CTRL_DELAY_REQ]
  · simp only [ptpV1DelayReq, bufferAlloc, bufferCopyTo, writeUInt8, writeUInt16BE,
      readUInt16BE, MSG_DELAY_REQ, CTRL_DELAY_REQ]
    norm_num
    omega
  · intro i hi
    simp only [ptpV1DelayReq, bufferAlloc, bufferCopyTo, writeUInt8, writeUInt16BE,
      MSG_DELAY_REQ, CTRL_DELAY_REQ, hsub]
    rw [if_neg (by omega), if_neg (by omega), if_neg (by omega), if_neg (by omega),
      if_neg (by omega), if_pos hi]
  · intro i h16 hne16 hne26 hne27 hne28
    simp only [ptpV1DelayReq, bufferAlloc, bufferCopyTo, writeUInt8, writeUInt16BE,
      MSG_DELAY_REQ, CTRL_DELAY_REQ, hsub]
    by_cases h17 : i = 17
    · subst h17
      norm_num
    · rw [if_neg (by omega), if_neg (by omega), if_neg (by omega), if_neg h17,
        if_neg (by omega), if_neg (by omega)]
  · simp [ptpV2DelayReq, bufferAlloc, writeUInt8, writeUInt16BE, readUInt8]
  · simp [ptpV2DelayReq, bufferAlloc, writeUInt8, writeUInt16BE, readUInt8]
  · simp only [ptpV2DelayReq, bufferAlloc, writeUInt8, writeUInt16BE, readUInt16BE]
    norm_num
  · simp only [ptpV2DelayReq, bufferAlloc, writeUInt8, writeUInt16BE, readUInt8]
    norm_num
    omega
  · simp only [ptpV2DelayReq, bufferAlloc, writeUInt8, writeUInt16BE, readUInt16BE]
    norm_num
    omega
  · intro i h0 h1 h2 h3 h4 h30 h31
    simp only [ptpV2DelayReq, bufferAlloc, writeUInt8, writeUInt16BE]
    rw [if_neg (by omega), if_neg (by omega), if_neg (by omega), if_neg (by omega),
      if_neg (by omega), if_neg (by omega), if_neg (by omega)]

/-- Witness for C5 at a concrete state: previous sequence 0, a 16-byte
zero subdomain buffer, domain 0. -/
theorem spec_C5_witness :
    (ptpV1DelayReq (bufferAlloc 16) 0).1 = (0 + 1) % 65536 ∧
    readUInt8 (ptpV1DelayReq (bufferAlloc 16) 0).2 16 = 2 ∧
    readUInt8 (ptpV1DelayReq (bufferAlloc 16) 0).2 28 = 1 ∧
    readUInt16BE (ptpV1DelayReq (bufferAlloc 16) 0).2 26 = (0 + 1) % 65536 ∧
    (ptpV1DelayReq (bufferAlloc 16) 0).2.byteAt 33 = 0 ∧
    readUInt8 (ptpV2DelayReq 0 0).2 4 = 0 ∧
    readUInt16BE (ptpV2DelayReq 0 0).2 30 = (0 + 1) % 65536 := by
  obtain ⟨h1, h2, h3, h4, _, h6, _, _, _, _, h11, h12, _⟩ :=
    spec_C5 (bufferAlloc 16) 0 0 rfl (by norm_num)
  exact ⟨h1, h2, h3, h4,
    h6 33 (by norm_num) (by norm_num) (by norm_num) (by norm_num) (by norm_num),
    h11, h12⟩

/-! ### Multicast group resolution -/

/-- The single PTPv1 multicast address (`src/ptpv1.ts` line 10); used
for every membership join and send of the legacy client, independent of
the configured subdomain. -/
def PTP_MULTICAST : String := "224.0.1.129"

/-- `PTP_PRIMARY_MULTICAST` (`src/ptpv2.ts` line 12). -/
def PTP_PRIMARY_MULTICAST : String := "224.0.1.129"

/-- `ptpDedicatedMulticastAddrs` (`src/ptpv2.ts` line 13). -/
def ptpDedicatedMulticastAddrs : List String :=
  ["224.0.1.129", "224.0.1.130", "224.0.1.131", "224.0.1.132"]

/-- Embedding of `ptpMulticastAddr` (`src/ptpv2.ts` lines 15–16):
`domain <= 3 ? ptpDedicatedMulticastAddrs[domain] : PTP_PRIMARY_MULTICAST`.
The `getD` default is unreachable: the guard keeps the index within the
four-element list. -/
def ptpMulticastAddr (domain : Nat) : String :=
  if domain ≤ 3 then ptpDedicatedMulticastAddrs.getD domain PTP_PRIMARY_MULTICAST
  else PTP_PRIMARY_MULTICAST

/-- Claim C8: multicast resolution is a pure function of the domain.
The legacy client always uses 224.0.1.129; the modern resolver maps
domains 0–3 to the four dedicated addresses in order and every domain
4–127 to the same address as domain 0. -/
theorem spec_C8 :
    PTP_MULTICAST = "224.0.1.129" ∧
    ptpMulticastAddr 0 = "224.0.1.129" ∧
    ptpMulticastAddr 1 = "224.0.1.130" ∧
    ptpMulticastAddr 2 = "224.0.1.131" ∧
    ptpMulticastAddr 3 = "224.0.1.132" ∧
    ∀ domain : Nat, 4 ≤ domain → domain ≤ 127 →
      ptpMulticastAddr domain = ptpMulticastAddr 0 := by
  refine ⟨rfl, rfl, rfl, rfl, rfl, ?_⟩
  intro domain h4 h127
  unfold ptpMulticastAddr
  rw [if_neg (by omega)]
  rfl

/-- Witness for C8: domain 100 resolves to the domain-0 address. -/
theorem spec_C8_witness : ptpMulticastAddr 100 = ptpMulticastAddr 0 :=
  spec_C8.2.2.2.2.2 100 (by norm_num) (by norm_num)

/-! ### Legacy constructor validation of the subdomain argument

A JavaScript string is modelled as its list of UTF-16 code units. -/

/-- `SUBDOMAIN_MAX_LEN` (`src/ptpv1.ts` line 47). -/
def SUBDOMAIN_MAX_LEN : Nat := 15

/-- One code unit of the character class `[\x20-\x7E]` of the
constructor's regular expression (`src/ptpv1.ts` line 214). -/
def isPrintableAscii (c : Nat) : Bool := decide (0x20 ≤ c ∧ c ≤ 0x7E)

/-- The subdomain-validation portion of the `PTPv1Client` constructor
(`src/ptpv1.ts` lines 204–216): it throws a `TypeError` iff the
subdomain is empty, longer than `SUBDOMAIN_MAX_LEN`, or fails the
`/^[\x20-\x7E]+$/` test (the regex matches iff the string is non-empty
and every code unit is printable ASCII, so on a non-empty string only
the per-character condition remains). -/
def subdomainCtorRejects (subdomain : List Nat) : Bool :=
  decide (subdomain.length = 0) ||
  decide (SUBDOMAIN_MAX_LEN < subdomain.length) ||
  !(subdomain.all isPrintableAscii)

/-- Claim C6: the legacy constructor accepts a subdomain exactly when it
is a string of 1 to 15 printable-ASCII (0x20–0x7E) code units; every
other subdomain raises a construction-time `TypeError`. -/
theorem spec_C6 (subdomain : List Nat) :
    subdomainCtorRejects subdomain = false ↔
      (1 ≤ subdomain.length ∧ subdomain.length ≤ 15 ∧
        ∀ c ∈ subdomain, 0x20 ≤ c ∧ c ≤ 0x7E) := by
  simp only [subdomainCtorRejects, SUBDOMAIN_MAX_LEN, isPrintableAscii,
    Bool.or_eq_false_iff, Bool.not_eq_false', List.all_eq_true, decide_eq_false_iff_not,
    decide_eq_true_eq]
  constructor
  · rintro ⟨⟨h0, h15⟩, hall⟩
    exact ⟨by omega, by omega, hall⟩
  · rintro ⟨h1, h15, hall⟩
    exact ⟨⟨by omega, by omega⟩, hall⟩

/-! ### Master-change detection on a filter-matching Sync -/

/-- The master-related client state consulted and mutated by the Sync
handler: `ptpMaster`, `ptpMasterAddress` and the `sync` flag. -/
structure MasterView where
  ptpMaster : String
  ptpMasterAddress : String
  sync : Bool

/-- Embedding of the master-change detection of both Sync handlers
(`src/ptpv1.ts` lines 259–264, `src/ptpv2.ts` lines 153–158):

    if (source != this.ptpMaster) {
      this.ptpMaster = source
      this.ptpMasterAddress = rinfo.address
      this.sync = false
      this.emit('ptp_master_changed', this.ptpMaster, rinfo.address, this.sync)
    }

Returns the updated state and the list of emitted
`ptp_master_changed` payloads. -/
def masterCheck (st : MasterView) (source address : String) :
    MasterView × List (String × String × Bool) :=
  if source ≠ st.ptpMaster then
    (⟨source, address, false⟩, [(source, address, false)])
  else
    (st, [])

/-- Claim C7: a filter-matching Sync whose source equals the stored
master leaves the master record and lock state unchanged and emits
nothing; a differing source replaces the (identity, address) pair,
forces the lock flag to false, and emits exactly one master-changed
event carrying the new identity, the sender address and the now-false
lock state. -/
theorem spec_C7 (st : MasterView) (source address : String) :
    (source = st.ptpMaster → masterCheck st source address = (st, [])) ∧
    (source ≠ st.ptpMaster →
      masterCheck st source address =
        (⟨source, address, false⟩, [(source, address, false)])) := by
  constructor
  · intro h
    unfold masterCheck
    rw [if_neg (by simp [h])]
  · intro h
    unfold masterCheck
    rw [if_pos h]

/-- Witness for C7 at concrete states: same identity is a no-op, a new
identity replaces the record, clears the lock and emits one event. -/
theorem spec_C7_witness :
    masterCheck ⟨"aa-bb:1", "10.0.0.1", true⟩ "aa-bb:1" "10.0.0.2" =
      (⟨"aa-bb:1", "10.0.0.1", true⟩, []) ∧
    masterCheck ⟨"aa-bb:1", "10.0.0.1", true⟩ "cc-dd:2" "10.0.0.2" =
      (⟨"cc-dd:2", "10.0.0.2", false⟩, [("cc-dd:2", "10.0.0.2", false)]) :=
  ⟨(spec_C7 ⟨"aa-bb:1", "10.0.0.1", true⟩ "aa-bb:1" "10.0.0.2").1 rfl,
   (spec_C7 ⟨"aa-bb:1", "10.0.0.1", true⟩ "cc-dd:2" "10.0.0.2").2 (by decide)⟩

/-! ### Teardown versus ordinary lock-state transitions -/

/-- The lock-related client state: the `sync` flag and whether a
`syncTimeout` timer is pending. -/
structure LockState where
  sync : Bool
  timeoutPending : Bool

/-- Embedding of `destroy()` (`src/ptpv1.ts` lines 375–383,
`src/ptpv2.ts` lines 272–280), restricted to the lock state it
mutates: cancel any pending timeout, set `sync = false`, emit
`sync_changed` with the new flag unconditionally.  Returns the new
state and the emitted `sync_changed` payloads. -/
def destroyStep (_st : LockState) : LockState × List Bool :=
  (⟨false, false⟩, [false])

/-- Embedding of `sync_change` (`src/ptpv1.ts` lines 470–474,
`src/ptpv2.ts` lines 325–329): emit only when the flag actually
flips. -/
def sync_change (st : LockState) (sync : Bool) : LockState × List Bool :=
  if st.sync = sync then (st, [])
  else (⟨sync, st.timeoutPending⟩, [sync])

/-- Claim C9: `destroy()` always cancels a pending lock-timeout, sets
the sync flag to false and emits `sync_changed(false)` unconditionally
— also from an already-unsynced state — whereas the ordinary
`sync_change` transition emits exactly when the state flips. -/
theorem spec_C9 (st : LockState) :
    (destroyStep st).1.sync = false ∧
    (destroyStep st).1.timeoutPending = false ∧
    (destroyStep st).2 = [false] ∧
    (∀ sync : Bool, (sync_change st sync).2 = [] ↔ st.sync = sync) := by
  refine ⟨rfl, rfl, rfl, ?_⟩
  intro sync
  unfold sync_change
  split
  · simp [*]
  · simp [*]

/-! ### Corrected-time queries of the modern client -/

/-- Embedding of the `ptp_time` getter (`src/ptpv2.ts` lines 366–370):
`normalizePtpTime(time[0] - offset[0], time[1] - offset[1])` where
`time` is the `process.hrtime()` reading, passed here as an explicit
argument. -/
def ptp_time (hrtime offset : Int × Int) : Int × Int :=
  normalizePtpTime (hrtime.1 - offset.1) (hrtime.2 - offset.2)

/-- Embedding of the `ptp_time_ns` getter (`src/ptpv2.ts` lines
375–378): `BigInt(s) * 1_000_000_000n + BigInt(ns)` for the pair
`[s, ns]` of one `ptp_time` reading. -/
def ptp_time_ns (hrtime offset : Int × Int) : Int :=
  (ptp_time hrtime offset).1 * NS_PER_SEC + (ptp_time hrtime offset).2

/-- Claim C10: the single-integer time query is the homomorphic image
of the component-pair query — `ptp_time_ns = s*1e9 + ns` for the pair
`(s, ns)` returned by one `ptp_time` reading — and, that pair being
normalized, `ptp_time_ns mod 1e9` recovers `ns`. -/
theorem spec_C10 (hrtime offset : Int × Int) :
    ptp_time_ns hrtime offset =
      (ptp_time hrtime offset).1 * 1000000000 + (ptp_time hrtime offset).2 ∧
    ptp_time_ns hrtime offset % 1000000000 = (ptp_time hrtime offset).2 := by
  obtain ⟨h1, h2, _⟩ :=
    normalizePtpTime_spec (hrtime.1 - offset.1) (hrtime.2 - offset.2)
  unfold ptp_time_ns ptp_time NS_PER_SEC at *
  exact ⟨rfl, by omega⟩

/-! ### Domain / subdomain registry intake

The registry (a JS `Set`) is modelled as a duplicate-free list in
insertion order; the second component of each operation records whether
the "new domain observed" notification was emitted. -/

/-- Embedding of `addDomain` (`src/ptpv2.ts` lines 314–318): no-op and
no event when the value was seen before, otherwise insert it and emit
one `domains` notification. -/
def addDomain (domainsFound : List Nat) (domain : Nat) : List Nat × Bool :=
  if domain ∈ domainsFound then (domainsFound, false)
  else (domainsFound ++ [domain], true)

/-- Embedding of `addSubdomain` (`src/ptpv1.ts` lines 464–468). -/
def addSubdomain (subdomainsFound : List (List Nat)) (name : List Nat) :
    List (List Nat) × Bool :=
  if name ∈ subdomainsFound then (subdomainsFound, false)
  else (subdomainsFound ++ [name], true)

/-- Embedding of `decodeSubdomain` (`src/ptpv1.ts` line 112): decode
bytes 0–15 with Node's 'ascii' decoding (which clears the high bit of
each byte) and trim the trailing run of NUL characters
(`.replace(/\0+$/, '')`). -/
def decodeSubdomain (b : JsBuffer) : List Nat :=
  ((((List.range 16).map b.byteAt).map (fun c => c % 128)).reverse.dropWhile
    (fun c => c == 0)).reverse

/-- Registry effect of the PTPv2 event-socket message handler
(`src/ptpv2.ts` lines 124–146): a packet shorter than 32 bytes returns
before `addDomain`; every other packet feeds its byte 4 to the
registry before the version/domain/type filters run. -/
def v2EventIntake (domainsFound : List Nat) (buffer : JsBuffer) : List Nat × Bool :=
  if buffer.size < 32 then (domainsFound, false)
  else addDomain domainsFound (readUInt8 buffer 4)

/-- Registry effect of the PTPv2 general-socket message handler
(`src/ptpv2.ts` lines 193–207), identical in shape. -/
def v2GeneralIntake (domainsFound : List Nat) (buffer : JsBuffer) : List Nat × Bool :=
  if buffer.size < 32 then (domainsFound, false)
  else addDomain domainsFound (readUInt8 buffer 4)

/-- Registry effect of the PTPv1 event-socket message handler
(`src/ptpv1.ts` lines 239–254). -/
def v1EventIntake (subdomainsFound : List (List Nat)) (buffer : JsBuffer) :
    List (List Nat) × Bool :=
  if buffer.size < 32 then (subdomainsFound, false)
  else addSubdomain subdomainsFound (decodeSubdomain buffer)

/-- Registry effect of the PTPv1 general-socket message handler
(`src/ptpv1.ts` lines 297–311). -/
def v1GeneralIntake (subdomainsFound : List (List Nat)) (buffer : JsBuffer) :
    List (List Nat) × Bool :=
  if buffer.size < 32 then (subdomainsFound, false)
  else addSubdomain subdomainsFound (decodeSubdomain buffer)

/-- Claim C3 counterexample: the 10-byte all-zero packet (the short
packet of the repository's own tests) carries domain byte 0 at offset
4, a value unseen in the empty registry, yet the handler discards it
without inserting into the registry and without emitting a
notification: packets shorter than the 32-byte minimum header are
never fed to the Domain Registry, contrary to the claim. -/
theorem spec_C3_counterexample :
    readUInt8 (bufferAlloc 10) 4 = 0 ∧
    (v2EventIntake [] (bufferAlloc 10)).1 = [] ∧
    (v2EventIntake [] (bufferAlloc 10)).2 = false :=
  ⟨rfl, rfl, rfl⟩

/-- Claim C3 as amended: on either channel of either client, every
inbound packet of at least 32 bytes has its domain/subdomain value fed
to the Domain Registry (inserted with a new-domain notification when
unseen) before any filtering discards the packet for sync purposes;
a packet shorter than 32 bytes is discarded without touching the
registry. -/
theorem spec_C3 (domainsFound : List Nat) (subdomainsFound : List (List Nat))
    (buffer : JsBuffer) :
    (32 ≤ buffer.size →
      v2EventIntake domainsFound buffer = addDomain domainsFound (readUInt8 buffer 4) ∧
      v2GeneralIntake domainsFound buffer = addDomain domainsFound (readUInt8 buffer 4) ∧
      v1EventIntake subdomainsFound buffer =
        addSubdomain subdomainsFound (decodeSubdomain buffer) ∧
      v1GeneralIntake subdomainsFound buffer =
        addSubdomain subdomainsFound (decodeSubdomain buffer) ∧
      readUInt8 buffer 4 ∈ (v2EventIntake domainsFound buffer).1 ∧
      (readUInt8 buffer 4 ∉ domainsFound ↔ (v2EventIntake domainsFound buffer).2 = true) ∧
      decodeSubdomain buffer ∈ (v1EventIntake subdomainsFound buffer).1 ∧
      (decodeSubdomain buffer ∉ subdomainsFound ↔
        (v1EventIntake subdomainsFound buffer).2 = true)) ∧
    (buffer.size < 32 →
      v2EventIntake domainsFound buffer = (domainsFound, false) ∧
      v2GeneralIntake domainsFound buffer = (domainsFound, false) ∧
      v1EventIntake subdomainsFound buffer = (subdomainsFound, false) ∧
      v1GeneralIntake subdomainsFound buffer = (subdomainsFound, false)) := by
  constructor
  · intro hsize
    have hn : ¬buffer.size < 32 := by omega
    refine ⟨?_, ?_, ?_, ?_, ?_, ?_, ?_, ?_⟩
    · unfold v2EventIntake
      rw [if_neg hn]
    · unfold v2GeneralIntake
      rw [if_neg hn]
    · unfold v1EventIntake
      rw [if_neg hn]
    · unfold v1GeneralIntake
      rw [if_neg hn]
    · unfold v2EventIntake
      rw [if_neg hn]
      unfold addDomain
      split
      · assumption
      · simp
    · unfold v2EventIntake
      rw [if_neg hn]
      unfold addDomain
      split
      · simp [*]
      · simp [*]
    · unfold v1EventIntake
      rw [if_neg hn]
      unfold addSubdomain
      split
      · assumption
      · simp
    · unfold v1EventIntake
      rw [if_neg hn]
      unfold addSubdomain
      split
      · simp [*]
      · simp [*]
  · intro hsize
    have hy : buffer.size < 32 := hsize
    refine ⟨?_, ?_, ?_, ?_⟩ <;>
      simp [v2EventIntake, v2GeneralIntake, v1EventIntake, v1GeneralIntake, hy]

/-- Witness for the amended C3 at concrete inputs: a 32-byte zero
packet feeds domain 0 to the empty registry with a notification; the
10-byte packet leaves it untouched. -/
theorem spec_C3_witness :
    v2EventIntake [] (bufferAlloc 32) = addDomain [] (readUInt8 (bufferAlloc 32) 4) ∧
    (0 : Nat) ∈ (v2EventIntake [] (bufferAlloc 32)).1 ∧
    v2EventIntake [] (bufferAlloc 10) = ([], false) := by
  obtain ⟨hbig, _⟩ := spec_C3 [] [] (bufferAlloc 32)
  obtain ⟨h1, _, _, _, h5, _⟩ := hbig (by decide)
  obtain ⟨_, hsmall⟩ := spec_C3 [] [] (bufferAlloc 10)
  exact ⟨h1, h5, (hsmall (by decide)).1⟩

/-! ### Legacy exact-match subdomain filtering -/

/-- Embedding of `encodeSubdomain` (`src/ptpv1.ts` lines 102–106):
`Buffer.alloc(16, 0)` then `Buffer.from(name, 'ascii').copy(buf, 0, 0, 15)`
— at most the first 15 bytes of the encoded name are copied (byte 15
always stays NUL) and Node's 'ascii' encoding writes each code unit
modulo 256. -/
def encodeSubdomain (name : List Nat) : JsBuffer :=
  ⟨16, fun i => if i < min name.length 15 then name.getD i 0 % 256 else 0⟩

/-- The 16-byte subdomain-name field (bytes 0–15) of an incoming PTPv1
packet that carries the subdomain string `pkt` NUL-padded on the wire
(`pkt` has at most 16 characters). -/
def subdomainFieldOf (pkt : List Nat) : JsBuffer :=
  ⟨16, fun i => if i < pkt.length then pkt.getD i 0 else 0⟩

/-- The subdomain acceptance check of both PTPv1 message handlers
(`src/ptpv1.ts` lines 254 and 311):
`buffer.subarray(0, 16).equals(this.subdomainBuf)`, a byte-for-byte
comparison of the 16-byte field against the stored encoding. -/
def subdomainFieldMatches (packetField subdomainBuf : JsBuffer) : Bool :=
  (List.range 16).all fun i => packetField.byteAt i == subdomainBuf.byteAt i

/-- A single differing byte below index 16 falsifies the 16-byte
comparison. -/
theorem subdomainFieldMatches_eq_false (a b : JsBuffer) (j : Nat) (hj : j < 16)
    (hne : a.byteAt j ≠ b.byteAt j) : subdomainFieldMatches a b = false := by
  unfold subdomainFieldMatches
  cases hab : (List.range 16).all fun i => a.byteAt i == b.byteAt i
  · rfl
  · exact absurd (by simpa using List.all_eq_true.mp hab j (List.mem_range.mpr hj)) hne

/-- Claim C4: the legacy client accepts a packet for sync processing
only when its 16-byte subdomain field equals, byte for byte, the
NUL-padded encoding of the configured subdomain; every incoming
subdomain that is a strict prefix or a strict superstring of the
configured one is rejected, while the configured subdomain itself
matches. -/
theorem spec_C4 (cfg pkt : List Nat)
    (hcfgLen1 : 1 ≤ cfg.length) (hcfgLen : cfg.length ≤ 15)
    (hcfgP : ∀ c ∈ cfg, 0x20 ≤ c ∧ c ≤ 0x7E)
    (hpktP : ∀ c ∈ pkt, 0x20 ≤ c ∧ c ≤ 0x7E)
    (hpktLen : pkt.length ≤ 16)
    (hext : (∃ t, t ≠ [] ∧ cfg = pkt ++ t) ∨ (∃ t, t ≠ [] ∧ pkt = cfg ++ t)) :
    subdomainFieldMatches (subdomainFieldOf pkt) (encodeSubdomain cfg) = false ∧
    subdomainFieldMatches (subdomainFieldOf cfg) (encodeSubdomain cfg) = true := by
  constructor
  · rcases hext with ⟨t, htne, hcfg⟩ | ⟨t, htne, hpkt⟩
    · -- the incoming subdomain is a strict prefix of the configured one:
      -- at index pkt.length the field has the NUL padding while the
      -- configured encoding has a printable character
      obtain ⟨c, t', rfl⟩ := List.exists_cons_of_ne_nil htne
      have hjcfg : pkt.length < cfg.length := by
        rw [hcfg]
        simp
      have hcP := hcfgP c (by rw [hcfg]; simp)
      apply subdomainFieldMatches_eq_false _ _ pkt.length (by omega)
      have ha : (subdomainFieldOf pkt).byteAt pkt.length = 0 := by
        simp [subdomainFieldOf]
      have hb : (encodeSubdomain cfg).byteAt pkt.length = c := by
        simp only [encodeSubdomain]
        rw [if_pos (by omega : pkt.length < min cfg.length 15)]
        rw [hcfg, List.getD_append_right _ _ _ _ (le_refl _)]
        simp [Nat.mod_eq_of_lt (by omega : c < 256)]
      rw [ha, hb]
      omega
    · -- the incoming subdomain strictly extends the configured one:
      -- at index cfg.length the configured encoding has the NUL padding
      -- while the field has a printable character
      obtain ⟨c, t', rfl⟩ := List.exists_cons_of_ne_nil htne
      have hjpkt : cfg.length < pkt.length := by
        rw [hpkt]
        simp
      have hcP := hpktP c (by rw [hpkt]; simp)
      apply subdomainFieldMatches_eq_false _ _ cfg.length (by omega)
      have ha : (subdomainFieldOf pkt).byteAt cfg.length = c := by
        simp only [subdomainFieldOf]
        rw [if_pos hjpkt, hpkt, List.getD_append_right _ _ _ _ (le_refl _)]
        simp
      have hb : (encodeSubdomain cfg).byteAt cfg.length = 0 := by
        simp only [encodeSubdomain]
        rw [if_neg (by omega : ¬ cfg.length < min cfg.length 15)]
      rw [ha, hb]
      omega
  · unfold subdomainFieldMatches
    rw [List.all_eq_true]
    intro i hi
    rw [List.mem_range] at hi
    simp only [subdomainFieldOf, encodeSubdomain]
    by_cases h : i < cfg.length
    · rw [if_pos h, if_pos (by omega : i < min cfg.length 15)]
      have hmem : cfg.getD i 0 ∈ cfg := by
        rw [List.getD_eq_getElem cfg 0 h]
        exact List.getElem_mem _
      have hc := hcfgP _ hmem
      rw [Nat.mod_eq_of_lt (by omega)]
      exact beq_self_eq_true _
    · rw [if_neg h, if_neg (by omega : ¬ i < min cfg.length 15)]
      exact beq_self_eq_true _

/-- Witness for C4: configured `"_DFLT"` rejects incoming `"_DFL"` (a
strict prefix) and accepts `"_DFLT"` itself. -/
theorem spec_C4_witness :
    subdomainFieldMatches (subdomainFieldOf [0x5F, 0x44, 0x46, 0x4C])
      (encodeSubdomain [0x5F, 0x44, 0x46, 0x4C, 0x54]) = false ∧
    subdomainFieldMatches (subdomainFieldOf [0x5F, 0x44, 0x46, 0x4C, 0x54])
      (encodeSubdomain [0x5F, 0x44, 0x46, 0x4C, 0x54]) = true :=
  spec_C4 [0x5F, 0x44, 0x46, 0x4C, 0x54] [0x5F, 0x44, 0x46, 0x4C]
    (by norm_num) (by norm_num) (by decide) (by decide) (by norm_num)
    (Or.inl ⟨[0x54], by decide, by decide⟩)

end PtpClient
